import Mathlib

/-!
Shallow embedding of the INA226 continuous-monitor sketch
(src/arduino/monitoramento.ino) and proofs of its specification claims.

Modelling conventions:
* Values of `millis()` are natural numbers.  The sketch runs in the
  monotone regime of the 32-bit millisecond counter, where the unsigned
  subtractions `currentMillis - lastTransmission`,
  `currentMillis - sessionStartTime` and `millis() - startTime` agree
  with truncated subtraction on ℕ.
* C `float` arithmetic is modelled over ℚ: the properties at stake are
  about the exact arithmetic expressions the sketch writes, and the
  spec treats floating-point rounding drift as a documented limitation
  outside these claims.
* One call of the Arduino `loop()` function is one tick, parametrised
  by the value of `millis()` at its entry and by what the sensor would
  answer on that tick (conversion-ready flag, bus voltage, raw current).
* The calibration busy-wait is modelled on the sequence of poll
  iterations it performs, each tagged with the `millis()` value observed
  by the loop condition and the sensor answer of that iteration.
-/

namespace Monitoramento

/-- Calibrated correction factor applied to every raw current reading
(source line 16: `const float CORRECTION_FACTOR = 0.968`). -/
def CORRECTION_FACTOR : ℚ := 968 / 1000

/-- Transmission interval in milliseconds
(source line 25: `const unsigned long TRANSMISSION_INTERVAL = 50`). -/
def TRANSMISSION_INTERVAL : ℕ := 50

/-- Duration of the baseline-measurement window in milliseconds
(source line 92: `while(millis() - startTime < 2000)`). -/
def BASELINE_WINDOW : ℕ := 2000

/-- The mutable globals of the sketch that the loop reads and writes
(source lines 19-26): `sessionStartTime`, `sampleCount`,
`baselineCurrent`, `totalEnergy`, `lastTransmission`. -/
structure SessionState where
  sessionStartTime : ℕ
  sampleCount : ℕ
  baselineCurrent : ℚ
  totalEnergy : ℚ
  lastTransmission : ℕ
  deriving DecidableEq

/-- What the sensor would answer if queried on a given tick:
the conversion-ready flag, `getBusVoltage()` and `getCurrent_mA()`. -/
structure SensorInput where
  ready : Bool
  busVoltage : ℚ
  rawCurrent : ℚ
  deriving DecidableEq

/-- One CSV data line of the sketch (source lines 131-137), as a value:
timestamp, voltage, current, net current, power, cumulative energy. -/
structure SampleRecord where
  timestamp : ℕ
  voltage : ℚ
  current : ℚ
  netCurrent : ℚ
  power : ℚ
  cumulativeEnergy : ℚ
  deriving DecidableEq

/-- One invocation of `loop()` (source lines 108-142): given the state,
the current `millis()` value and the sensor answer, return the updated
state and the emitted record, if any. -/
def loopTick (s : SessionState) (now : ℕ) (inp : SensorInput) :
    SessionState × Option SampleRecord :=
  if TRANSMISSION_INTERVAL ≤ now - s.lastTransmission then
    if inp.ready then
      let voltage := inp.busVoltage
      let current := |inp.rawCurrent| * CORRECTION_FACTOR
      let power := voltage * current
      let netCurrent := current - s.baselineCurrent
      let timestamp := now - s.sessionStartTime
      let deltaTime : ℚ := ((now - s.lastTransmission : ℕ) : ℚ) / 1000 / 3600
      let totalEnergy := s.totalEnergy + power * deltaTime
      ({ s with
          sampleCount := s.sampleCount + 1
          totalEnergy := totalEnergy
          lastTransmission := now },
       some { timestamp := timestamp
              voltage := voltage
              current := current
              netCurrent := netCurrent
              power := power
              cumulativeEnergy := totalEnergy })
    else (s, none)
  else (s, none)

/-- One scheduler tick: the `millis()` value at entry of `loop()` and
the sensor answer for that tick. -/
structure Tick where
  now : ℕ
  input : SensorInput
  deriving DecidableEq

/-- Run a sequence of `loop()` invocations from a state, collecting the
emitted records in order; each record is paired with the value of the
`sampleCount` global at the moment it is emitted. -/
def runTicks (s : SessionState) : List Tick → SessionState × List (SampleRecord × ℕ)
  | [] => (s, [])
  | t :: rest =>
    let out := loopTick s t.now t.input
    let tail := runTicks out.1 rest
    (tail.1, (out.2.map (fun r => (r, out.1.sampleCount))).toList ++ tail.2)

/-- The session state as the main loop first sees it: the globals start
at zero (source lines 19-26), `setup()` sets `sessionStartTime` to the
current `millis()` and resets `sampleCount` (lines 77-78), stores the
measured baseline (line 102), and leaves `lastTransmission` at its
initial value `0`. -/
def initialState (t0 : ℕ) (baseline : ℚ) : SessionState :=
  { sessionStartTime := t0
    sampleCount := 0
    baselineCurrent := baseline
    totalEnergy := 0
    lastTransmission := 0 }

/-- The accumulation loop of `measureBaseline` (source lines 92-99):
each poll iteration is a pair of the `millis()` value observed by the
loop condition and the sensor answer (`some raw` when
`isConversionReady()` holds, `none` otherwise).  The loop exits at the
first iteration whose time is outside the window. -/
def baselineLoop (startTime : ℕ) : List (ℕ × Option ℚ) → ℚ × ℕ → ℚ × ℕ
  | [], acc => acc
  | (t, o) :: rest, acc =>
    if t - startTime < BASELINE_WINDOW then
      baselineLoop startTime rest
        (match o with
         | some raw => (acc.1 + |raw| * CORRECTION_FACTOR, acc.2 + 1)
         | none => acc)
    else acc

/-- `measureBaseline` (source lines 86-106): accumulate over the poll
iterations, then return `sum / samples` if any sample was ready and `0`
otherwise. -/
def measureBaseline (startTime : ℕ) (polls : List (ℕ × Option ℚ)) : ℚ :=
  let acc := baselineLoop startTime polls (0, 0)
  if 0 < acc.2 then acc.1 / acc.2 else 0

/-- The poll iterations that fall inside the calibration window: the
while-loop processes iterations exactly up to the first one observed at
or past the deadline. -/
def windowPolls (startTime : ℕ) (polls : List (ℕ × Option ℚ)) :
    List (ℕ × Option ℚ) :=
  polls.takeWhile (fun p => p.1 - startTime < BASELINE_WINDOW)

/-- The raw current values of the ready samples inside the calibration
window, in order. -/
def readyValues (startTime : ℕ) (polls : List (ℕ × Option ℚ)) : List ℚ :=
  (windowPolls startTime polls).filterMap Prod.snd

/-- The diagnostic line of the detection-failure loop (source line 46). -/
def diagLine : String := "# ERROR: Check connections SDA=GPIO21 SCL=GPIO22"

/-- The sentinel line that opens the data phase (source line 83). -/
def dataStartLine : String := "# DATA_START"

/-- The serial output of `setup()` on the device-not-detected path, line
by line (source lines 33-36, 44, 45-48): the four header lines, the
detection error line, then the infinite diagnostic loop. -/
def setupFailOutput : ℕ → String
  | 0 => "# INA226 ESP32C6 Monitor - Continuous Mode"
  | 1 => "# Version: 1.0"
  | 2 => "# Shunt: 100mOhm (R100)"
  | 3 => "# Correction Factor: 0.968"
  | 4 => "# ERROR: INA226 not detected!"
  | _ + 5 => diagLine

/-- Time offset, in milliseconds from entry of the failure loop, at
which its k-th diagnostic line is emitted: each iteration prints and
then delays 5000 ms (source lines 45-48). -/
def diagEmitOffset (k : ℕ) : ℕ := 5000 * k

/-- Where control ends up after `setup()`: the monitoring loop when
`INA.begin()` succeeded, the infinite diagnostic loop otherwise
(source lines 43-49). -/
inductive ProgramPhase
  | failLoop
  | monitoring
  deriving DecidableEq

/-- Control flow of `setup()` on the detection check (source line 43). -/
def phaseAfterSetup (beginOk : Bool) : ProgramPhase :=
  if beginOk then ProgramPhase.monitoring else ProgramPhase.failLoop

/-- The sample records produced by a whole run of the program: none at
all when detection failed (the sketch never leaves the diagnostic loop),
otherwise the records of the tick sequence run from the initial state. -/
def runProgram (beginOk : Bool) (t0 : ℕ) (b : ℚ) (ticks : List Tick) :
    List SampleRecord :=
  match phaseAfterSetup beginOk with
  | ProgramPhase.failLoop => []
  | ProgramPhase.monitoring => ((runTicks (initialState t0 b) ticks).2).map Prod.fst

/-- Relation between an emitted record (paired with the sample count
observed at its emission) and the next one: spacing of at least the
transmission interval, strictly increasing timestamp, non-decreasing
sample count and cumulative energy. -/
def recR (p q : SampleRecord × ℕ) : Prop :=
  p.1.timestamp + TRANSMISSION_INTERVAL ≤ q.1.timestamp ∧
  p.1.timestamp < q.1.timestamp ∧
  p.2 ≤ q.2 ∧
  p.1.cumulativeEnergy ≤ q.1.cumulativeEnergy

instance (p q : SampleRecord × ℕ) : Decidable (recR p q) := by
  unfold recR
  infer_instance

/-- A concrete two-tick schedule used to instantiate the trace theorems:
both ticks past the interval, sensor ready, 5 V bus. -/
def sampleTicks : List Tick :=
  [{ now := 100, input := { ready := true, busVoltage := 5, rawCurrent := 100 } },
   { now := 160, input := { ready := true, busVoltage := 5, rawCurrent := 50 } }]

/-- Unfolding lemma: a tick on which the interval has elapsed and the
sensor is ready emits a record and updates the globals. -/
theorem loopTick_emit (s : SessionState) (now : ℕ) (inp : SensorInput)
    (h1 : TRANSMISSION_INTERVAL ≤ now - s.lastTransmission)
    (h2 : inp.ready = true) :
    loopTick s now inp =
      ({ s with
          sampleCount := s.sampleCount + 1
          totalEnergy := s.totalEnergy +
            (inp.busVoltage * (|inp.rawCurrent| * CORRECTION_FACTOR)) *
              (((now - s.lastTransmission : ℕ) : ℚ) / 1000 / 3600)
          lastTransmission := now },
       some { timestamp := now - s.sessionStartTime
              voltage := inp.busVoltage
              current := |inp.rawCurrent| * CORRECTION_FACTOR
              netCurrent := |inp.rawCurrent| * CORRECTION_FACTOR - s.baselineCurrent
              power := inp.busVoltage * (|inp.rawCurrent| * CORRECTION_FACTOR)
              cumulativeEnergy := s.totalEnergy +
                (inp.busVoltage * (|inp.rawCurrent| * CORRECTION_FACTOR)) *
                  (((now - s.lastTransmission : ℕ) : ℚ) / 1000 / 3600) }) := by
  simp [loopTick, h1, h2]

/-- Unfolding lemma: a tick before the interval has elapsed is a no-op. -/
theorem loopTick_skip_early (s : SessionState) (now : ℕ) (inp : SensorInput)
    (h : now - s.lastTransmission < TRANSMISSION_INTERVAL) :
    loopTick s now inp = (s, none) := by
  simp [loopTick, Nat.not_le.mpr h]

/-- Unfolding lemma: a tick on which the sensor is not ready is a no-op. -/
theorem loopTick_skip_notReady (s : SessionState) (now : ℕ) (inp : SensorInput)
    (h : inp.ready = false) :
    loopTick s now inp = (s, none) := by
  simp [loopTick, h]

/-- C1: on every tick that emits a record, the energy accumulator is
updated by exactly `totalEnergy += power * deltaTimeHours` with
`deltaTimeHours = (now - lastTransmission) / 3600000`, and
`lastTransmission` holds the time of the previous actual transmission:
it is set to `now` on every emission and left untouched by every
non-emitting tick. -/
theorem energy_update_exact (s : SessionState) (now : ℕ) (inp : SensorInput)
    (h1 : TRANSMISSION_INTERVAL ≤ now - s.lastTransmission)
    (h2 : inp.ready = true) :
    ∃ r : SampleRecord,
      (loopTick s now inp).2 = some r ∧
      (loopTick s now inp).1.totalEnergy =
        s.totalEnergy + r.power * (((now - s.lastTransmission : ℕ) : ℚ) / 3600000) ∧
      (loopTick s now inp).1.lastTransmission = now ∧
      (∀ m j, (loopTick s m j).2 = none →
        (loopTick s m j).1.lastTransmission = s.lastTransmission) := by
  have he := loopTick_emit s now inp h1 h2
  rw [he]
  refine ⟨_, rfl, ?_, rfl, ?_⟩
  · show s.totalEnergy + _ * (((now - s.lastTransmission : ℕ) : ℚ) / 1000 / 3600) =
      s.totalEnergy + _ * (((now - s.lastTransmission : ℕ) : ℚ) / 3600000)
    rw [div_div]
    norm_num
  · intro m j hn
    rcases Nat.lt_or_ge (m - s.lastTransmission) TRANSMISSION_INTERVAL with hc | hc
    · rw [loopTick_skip_early s m j hc]
    · cases hjr : j.ready with
      | false => rw [loopTick_skip_notReady s m j hjr]
      | true =>
        rw [loopTick_emit s m j hc hjr] at hn
        exact absurd hn (by simp)

/-- Witness for C1 at a concrete tick. -/
theorem energy_update_exact_witness :
    TRANSMISSION_INTERVAL ≤ 100 - (initialState 0 12).lastTransmission ∧
    (∃ r : SampleRecord,
      (loopTick (initialState 0 12) 100 { ready := true, busVoltage := 5, rawCurrent := 100 }).2 = some r ∧
      (loopTick (initialState 0 12) 100 { ready := true, busVoltage := 5, rawCurrent := 100 }).1.totalEnergy =
        (initialState 0 12).totalEnergy +
          r.power * (((100 - (initialState 0 12).lastTransmission : ℕ) : ℚ) / 3600000) ∧
      (loopTick (initialState 0 12) 100 { ready := true, busVoltage := 5, rawCurrent := 100 }).1.lastTransmission = 100 ∧
      (∀ m j, (loopTick (initialState 0 12) m j).2 = none →
        (loopTick (initialState 0 12) m j).1.lastTransmission = (initialState 0 12).lastTransmission)) :=
  ⟨by decide,
   energy_update_exact (initialState 0 12) 100 { ready := true, busVoltage := 5, rawCurrent := 100 }
     (by decide) (by decide)⟩

/-- C3: every emitted record satisfies
`netCurrent = current - baselineCurrent` exactly, with `current` the
corrected reading `abs(raw) * CORRECTION_FACTOR` and the baseline the
one stored in the session state. -/
theorem netCurrent_exact (s : SessionState) (now : ℕ) (inp : SensorInput)
    (h1 : TRANSMISSION_INTERVAL ≤ now - s.lastTransmission)
    (h2 : inp.ready = true) :
    ∃ r : SampleRecord,
      (loopTick s now inp).2 = some r ∧
      r.current = |inp.rawCurrent| * CORRECTION_FACTOR ∧
      r.netCurrent = r.current - s.baselineCurrent := by
  rw [loopTick_emit s now inp h1 h2]
  exact ⟨_, rfl, rfl, rfl⟩

/-- Witness for C3 at a concrete tick. -/
theorem netCurrent_exact_witness :
    TRANSMISSION_INTERVAL ≤ 60 - (initialState 0 12).lastTransmission ∧
    (∃ r : SampleRecord,
      (loopTick (initialState 0 12) 60 { ready := true, busVoltage := 5, rawCurrent := 100 }).2 = some r ∧
      r.current = |(100 : ℚ)| * CORRECTION_FACTOR ∧
      r.netCurrent = r.current - (initialState 0 12).baselineCurrent) :=
  ⟨by decide,
   netCurrent_exact (initialState 0 12) 60 { ready := true, busVoltage := 5, rawCurrent := 100 }
     (by decide) (by decide)⟩

/-- C4: every emitted record satisfies `power = busVoltage * current`
exactly, with `voltage` the bus voltage and `current` the corrected
absolute reading of the same tick. -/
theorem power_exact (s : SessionState) (now : ℕ) (inp : SensorInput)
    (h1 : TRANSMISSION_INTERVAL ≤ now - s.lastTransmission)
    (h2 : inp.ready = true) :
    ∃ r : SampleRecord,
      (loopTick s now inp).2 = some r ∧
      r.voltage = inp.busVoltage ∧
      r.current = |inp.rawCurrent| * CORRECTION_FACTOR ∧
      r.power = r.voltage * r.current := by
  rw [loopTick_emit s now inp h1 h2]
  exact ⟨_, rfl, rfl, rfl, rfl⟩

/-- Witness for C4 at a concrete tick. -/
theorem power_exact_witness :
    TRANSMISSION_INTERVAL ≤ 60 - (initialState 0 12).lastTransmission ∧
    (∃ r : SampleRecord,
      (loopTick (initialState 0 12) 60 { ready := true, busVoltage := 5, rawCurrent := 100 }).2 = some r ∧
      r.voltage = (5 : ℚ) ∧
      r.current = |(100 : ℚ)| * CORRECTION_FACTOR ∧
      r.power = r.voltage * r.current) :=
  ⟨by decide,
   power_exact (initialState 0 12) 60 { ready := true, busVoltage := 5, rawCurrent := 100 }
     (by decide) (by decide)⟩

/-- C6: a tick invoked before the transmission interval has elapsed
emits nothing and mutates no field of the session state. -/
theorem early_tick_noop (s : SessionState) (now : ℕ) (inp : SensorInput)
    (h : now - s.lastTransmission < TRANSMISSION_INTERVAL) :
    loopTick s now inp = (s, none) ∧
    (loopTick s now inp).1.sampleCount = s.sampleCount ∧
    (loopTick s now inp).1.totalEnergy = s.totalEnergy ∧
    (loopTick s now inp).1.lastTransmission = s.lastTransmission ∧
    (loopTick s now inp).1.sessionStartTime = s.sessionStartTime := by
  rw [loopTick_skip_early s now inp h]
  exact ⟨rfl, rfl, rfl, rfl, rfl⟩

/-- Witness for C6 at a concrete tick. -/
theorem early_tick_noop_witness :
    30 - (initialState 0 12).lastTransmission < TRANSMISSION_INTERVAL ∧
    (loopTick (initialState 0 12) 30 { ready := true, busVoltage := 5, rawCurrent := 100 } =
      (initialState 0 12, none) ∧
     (loopTick (initialState 0 12) 30 { ready := true, busVoltage := 5, rawCurrent := 100 }).1.sampleCount =
       (initialState 0 12).sampleCount ∧
     (loopTick (initialState 0 12) 30 { ready := true, busVoltage := 5, rawCurrent := 100 }).1.totalEnergy =
       (initialState 0 12).totalEnergy ∧
     (loopTick (initialState 0 12) 30 { ready := true, busVoltage := 5, rawCurrent := 100 }).1.lastTransmission =
       (initialState 0 12).lastTransmission ∧
     (loopTick (initialState 0 12) 30 { ready := true, busVoltage := 5, rawCurrent := 100 }).1.sessionStartTime =
       (initialState 0 12).sessionStartTime) :=
  ⟨by decide,
   early_tick_noop (initialState 0 12) 30 { ready := true, busVoltage := 5, rawCurrent := 100 }
     (by decide)⟩

/-- C7: a tick on which the interval has elapsed but the sensor is not
ready returns with no side effects; on any non-emitting tick the state
(so in particular `lastTransmission`) is unchanged; and from an
unchanged state any later ready tick emits at once, so the scheduler
retries on the very next invocation. -/
theorem notReady_noop (s : SessionState) (now : ℕ) (inp : SensorInput)
    (h1 : TRANSMISSION_INTERVAL ≤ now - s.lastTransmission)
    (h2 : inp.ready = false) :
    loopTick s now inp = (s, none) ∧
    (∀ m j, (loopTick s m j).2 = none → (loopTick s m j).1 = s) ∧
    (∀ m j, now ≤ m → j.ready = true → ((loopTick s m j).2).isSome = true) := by
  refine ⟨loopTick_skip_notReady s now inp h2, ?_, ?_⟩
  · intro m j hn
    rcases Nat.lt_or_ge (m - s.lastTransmission) TRANSMISSION_INTERVAL with hc | hc
    · rw [loopTick_skip_early s m j hc]
    · cases hjr : j.ready with
      | false => rw [loopTick_skip_notReady s m j hjr]
      | true =>
        rw [loopTick_emit s m j hc hjr] at hn
        exact absurd hn (by simp)
  · intro m j hm hj
    have hc : TRANSMISSION_INTERVAL ≤ m - s.lastTransmission :=
      le_trans h1 (Nat.sub_le_sub_right hm _)
    rw [loopTick_emit s m j hc hj]
    rfl

/-- Witness for C7 at a concrete tick. -/
theorem notReady_noop_witness :
    TRANSMISSION_INTERVAL ≤ 70 - (initialState 0 12).lastTransmission ∧
    (loopTick (initialState 0 12) 70 { ready := false, busVoltage := 5, rawCurrent := 100 } =
       (initialState 0 12, none) ∧
     (∀ m j, (loopTick (initialState 0 12) m j).2 = none →
       (loopTick (initialState 0 12) m j).1 = initialState 0 12) ∧
     (∀ m j, 70 ≤ m → j.ready = true →
       ((loopTick (initialState 0 12) m j).2).isSome = true)) :=
  ⟨by decide,
   notReady_noop (initialState 0 12) 70 { ready := false, busVoltage := 5, rawCurrent := 100 }
     (by decide) (by decide)⟩

/-- C10: the net current is not clamped at zero: on a tick whose
corrected current is strictly below the stored baseline, the emitted
record carries a strictly negative net current while its current and
power remain products of the absolute raw reading. -/
theorem netCurrent_not_clamped (s : SessionState) (now : ℕ) (inp : SensorInput)
    (h1 : TRANSMISSION_INTERVAL ≤ now - s.lastTransmission)
    (h2 : inp.ready = true)
    (h3 : |inp.rawCurrent| * CORRECTION_FACTOR < s.baselineCurrent) :
    ∃ r : SampleRecord,
      (loopTick s now inp).2 = some r ∧
      r.netCurrent < 0 ∧
      r.current = |inp.rawCurrent| * CORRECTION_FACTOR ∧
      r.power = inp.busVoltage * (|inp.rawCurrent| * CORRECTION_FACTOR) := by
  rw [loopTick_emit s now inp h1 h2]
  exact ⟨_, rfl, sub_neg.mpr h3, rfl, rfl⟩

/-- Witness for C10 at a concrete tick: corrected current 9.68 mA under
a 12 mA baseline. -/
theorem netCurrent_not_clamped_witness :
    TRANSMISSION_INTERVAL ≤ 60 - (initialState 0 12).lastTransmission ∧
    |(10 : ℚ)| * CORRECTION_FACTOR < (initialState 0 12).baselineCurrent ∧
    (∃ r : SampleRecord,
      (loopTick (initialState 0 12) 60 { ready := true, busVoltage := 5, rawCurrent := 10 }).2 = some r ∧
      r.netCurrent < 0 ∧
      r.current = |(10 : ℚ)| * CORRECTION_FACTOR ∧
      r.power = (5 : ℚ) * (|(10 : ℚ)| * CORRECTION_FACTOR)) :=
  ⟨by decide, by
    rw [show |(10 : ℚ)| = 10 from abs_of_nonneg (by norm_num)]
    norm_num [CORRECTION_FACTOR, initialState],
   netCurrent_not_clamped (initialState 0 12) 60 { ready := true, busVoltage := 5, rawCurrent := 10 }
     (by decide)
     (by decide)
     (by
       rw [show |(10 : ℚ)| = 10 from abs_of_nonneg (by norm_num)]
       norm_num [CORRECTION_FACTOR, initialState])⟩

/-- Accumulation lemma for the calibration loop: starting from any
accumulator, the loop adds the corrected values of exactly the ready
samples inside the window and counts them. -/
theorem baselineLoop_eq (startTime : ℕ) (polls : List (ℕ × Option ℚ)) :
    ∀ a n, baselineLoop startTime polls (a, n) =
      (a + ((readyValues startTime polls).map (fun r => |r| * CORRECTION_FACTOR)).sum,
       n + (readyValues startTime polls).length) := by
  induction polls with
  | nil =>
    intro a n
    simp [baselineLoop, readyValues, windowPolls]
  | cons p rest ih =>
    intro a n
    obtain ⟨t, o⟩ := p
    by_cases hw : t - startTime < BASELINE_WINDOW
    · cases o with
      | none =>
        simp only [baselineLoop, if_pos hw]
        rw [ih]
        simp [readyValues, windowPolls, List.takeWhile_cons, hw]
      | some raw =>
        simp only [baselineLoop, if_pos hw]
        rw [ih]
        simp [readyValues, windowPolls, List.takeWhile_cons, hw]
        exact ⟨by ring, by omega⟩
    · simp only [baselineLoop, if_neg hw]
      simp [readyValues, windowPolls, List.takeWhile_cons, hw]

/-- C5: `measureBaseline` accumulates `abs(value) * CORRECTION_FACTOR`
over exactly the ready samples polled inside the fixed window and
returns their sum divided by their count; with zero ready samples over
the whole window it returns exactly `0`. -/
theorem measureBaseline_characterisation (startTime : ℕ)
    (polls : List (ℕ × Option ℚ)) :
    measureBaseline startTime polls =
      if readyValues startTime polls = [] then 0
      else ((readyValues startTime polls).map (fun r => |r| * CORRECTION_FACTOR)).sum /
             (readyValues startTime polls).length := by
  unfold measureBaseline
  rw [baselineLoop_eq]
  simp only [zero_add]
  rcases eq_or_ne (readyValues startTime polls) [] with h | h
  · simp [h]
  · have hl : 0 < (readyValues startTime polls).length := List.length_pos.mpr h
    rw [if_pos hl, if_neg h]

/-- C8 counterexample: a session whose loop starts at
`sessionStartTime = 4000` (so the globals still hold
`lastTransmission = 0`), first ticked at `now = 4100` with a ready
sensor, 5 V and 100 mA raw: the emitted first record carries
`cumulativeEnergy = 484 * 4100 / 3600000 = 4961/9000` mWh, which is not
`power * deltaTimeHoursFromSessionStart = 484 * 100 / 3600000`. -/
theorem first_sample_delta_counterexample :
    (loopTick (initialState 4000 12) 4100
        { ready := true, busVoltage := 5, rawCurrent := 100 }).2 =
      some { timestamp := 100, voltage := 5, current := 484 / 5,
             netCurrent := 424 / 5, power := 484,
             cumulativeEnergy := 4961 / 9000 } ∧
    ¬ ((4961 / 9000 : ℚ) =
        484 * (((4100 - (initialState 4000 12).sessionStartTime : ℕ) : ℚ) / 3600000)) := by
  have habs : |(100 : ℚ)| = 100 := abs_of_nonneg (by norm_num)
  constructor
  · rw [loopTick_emit _ _ _ (by decide) rfl]
    simp only [initialState, Option.some.injEq, SampleRecord.mk.injEq, habs]
    norm_num [CORRECTION_FACTOR]
  · simp only [initialState]
    norm_num

/-- C8 amended: at the first emitted sample of a session the
integration delta is measured from the initial value `0` of
`lastTransmission` (the boot instant), not from `sessionStartTime`:
`cumulativeEnergy = power * (now / 3600000)`. -/
theorem first_sample_delta_amended (t0 : ℕ) (b : ℚ) (now : ℕ)
    (inp : SensorInput)
    (h1 : TRANSMISSION_INTERVAL ≤ now)
    (h2 : inp.ready = true) :
    ∃ r : SampleRecord,
      (loopTick (initialState t0 b) now inp).2 = some r ∧
      r.cumulativeEnergy = r.power * ((now : ℚ) / 3600000) ∧
      (initialState t0 b).lastTransmission = 0 := by
  have h1' : TRANSMISSION_INTERVAL ≤ now - (initialState t0 b).lastTransmission := by
    simpa [initialState] using h1
  rw [loopTick_emit _ now inp h1' h2]
  refine ⟨_, rfl, ?_, rfl⟩
  show (initialState t0 b).totalEnergy +
      (inp.busVoltage * (|inp.rawCurrent| * CORRECTION_FACTOR)) *
        (((now - (initialState t0 b).lastTransmission : ℕ) : ℚ) / 1000 / 3600) =
    (inp.busVoltage * (|inp.rawCurrent| * CORRECTION_FACTOR)) * ((now : ℚ) / 3600000)
  simp only [initialState, Nat.sub_zero, zero_add]
  rw [div_div]
  norm_num

/-- Witness for the amended C8 at a concrete first tick. -/
theorem first_sample_delta_amended_witness :
    TRANSMISSION_INTERVAL ≤ 4100 ∧
    (∃ r : SampleRecord,
      (loopTick (initialState 4000 12) 4100
          { ready := true, busVoltage := 5, rawCurrent := 100 }).2 = some r ∧
      r.cumulativeEnergy = r.power * (((4100 : ℕ) : ℚ) / 3600000) ∧
      (initialState 4000 12).lastTransmission = 0) :=
  ⟨by decide,
   first_sample_delta_amended 4000 12 4100
     { ready := true, busVoltage := 5, rawCurrent := 100 } (by decide) rfl⟩

/-- C9: on the device-not-detected path the serial output never
contains the DATA_START sentinel; from the fifth line on every line is
the fixed diagnostic comment, successive diagnostics being spaced
exactly 5000 ms apart; and a run of the program in that phase produces
no sample record at all. -/
theorem fail_path_no_data :
    (∀ n, setupFailOutput n ≠ dataStartLine) ∧
    (∀ k, setupFailOutput (k + 5) = diagLine ∧
          diagEmitOffset (k + 1) = diagEmitOffset k + 5000) ∧
    (∀ t0 : ℕ, ∀ b : ℚ, ∀ ticks : List Tick, runProgram false t0 b ticks = []) := by
  refine ⟨?_, ?_, ?_⟩
  · intro n
    match n with
    | 0 => decide
    | 1 => decide
    | 2 => decide
    | 3 => decide
    | 4 => decide
    | m + 5 =>
      show diagLine ≠ dataStartLine
      decide
  · intro k
    exact ⟨rfl, by simp [diagEmitOffset, Nat.mul_succ]⟩
  · intro t0 b ticks
    rfl

/-- Unfolding lemma for one step of the tick run. -/
theorem runTicks_cons (s : SessionState) (t : Tick) (rest : List Tick) :
    runTicks s (t :: rest) =
      ((runTicks (loopTick s t.now t.input).1 rest).1,
       ((loopTick s t.now t.input).2.map
           (fun r => (r, (loopTick s t.now t.input).1.sampleCount))).toList ++
         (runTicks (loopTick s t.now t.input).1 rest).2) := rfl

/-- Invariant of the tick run under monotone tick times: the emitted
record sequence is a chain for `recR`, and every emitted record sits at
least one transmission interval after the incoming `lastTransmission`,
with sample count and cumulative energy above the incoming ones. -/
theorem runTicks_inv (ticks : List Tick) : ∀ s : SessionState,
    List.Pairwise (fun a b : Tick => a.now ≤ b.now) ticks →
    (∀ t ∈ ticks, s.sessionStartTime ≤ t.now) →
    (∀ t ∈ ticks, s.lastTransmission ≤ t.now) →
    (∀ t ∈ ticks, 0 ≤ t.input.busVoltage) →
    List.Chain' recR (runTicks s ticks).2 ∧
    (∀ p ∈ (runTicks s ticks).2,
      s.lastTransmission + TRANSMISSION_INTERVAL ≤ p.1.timestamp + s.sessionStartTime ∧
      s.sampleCount < p.2 ∧
      s.totalEnergy ≤ p.1.cumulativeEnergy) := by
  induction ticks with
  | nil =>
    intro s _ _ _ _
    simp [runTicks]
  | cons t rest ih =>
    intro s hmono hstart hlast hV
    have hmono1 : ∀ u ∈ rest, t.now ≤ u.now := (List.pairwise_cons.mp hmono).1
    have hmono2 : List.Pairwise (fun a b : Tick => a.now ≤ b.now) rest :=
      (List.pairwise_cons.mp hmono).2
    have hstart0 : s.sessionStartTime ≤ t.now := hstart t (List.mem_cons_self t rest)
    have hlast0 : s.lastTransmission ≤ t.now := hlast t (List.mem_cons_self t rest)
    have hV0 : 0 ≤ t.input.busVoltage := hV t (List.mem_cons_self t rest)
    have hstartR : ∀ u ∈ rest, s.sessionStartTime ≤ u.now :=
      fun u hu => hstart u (List.mem_cons_of_mem t hu)
    have hlastR : ∀ u ∈ rest, s.lastTransmission ≤ u.now :=
      fun u hu => hlast u (List.mem_cons_of_mem t hu)
    have hVR : ∀ u ∈ rest, 0 ≤ u.input.busVoltage :=
      fun u hu => hV u (List.mem_cons_of_mem t hu)
    have hTI : 0 < TRANSMISSION_INTERVAL := by norm_num [TRANSMISSION_INTERVAL]
    rcases Nat.lt_or_ge (t.now - s.lastTransmission) TRANSMISSION_INTERVAL with hc | hc
    · rw [runTicks_cons, loopTick_skip_early s t.now t.input hc]
      simpa using ih s hmono2 hstartR hlastR hVR
    · cases hr : t.input.ready with
      | false =>
        rw [runTicks_cons, loopTick_skip_notReady s t.now t.input hr]
        simpa using ih s hmono2 hstartR hlastR hVR
      | true =>
        have hPD : 0 ≤ (t.input.busVoltage * (|t.input.rawCurrent| * CORRECTION_FACTOR)) *
            (((t.now - s.lastTransmission : ℕ) : ℚ) / 1000 / 3600) := by
          apply mul_nonneg
          · exact mul_nonneg hV0
              (mul_nonneg (abs_nonneg _) (by norm_num [CORRECTION_FACTOR]))
          · positivity
        have key := ih
          { s with
              sampleCount := s.sampleCount + 1
              totalEnergy := s.totalEnergy +
                (t.input.busVoltage * (|t.input.rawCurrent| * CORRECTION_FACTOR)) *
                  (((t.now - s.lastTransmission : ℕ) : ℚ) / 1000 / 3600)
              lastTransmission := t.now }
          hmono2 (by simpa using hstartR) (by simpa using hmono1) hVR
        rw [runTicks_cons, loopTick_emit s t.now t.input hc hr]
        dsimp only [Option.map_some', Option.toList_some, List.singleton_append]
        dsimp only at key
        constructor
        · refine List.Chain'.cons' key.1 ?_
          intro y hy
          obtain ⟨hy1, hy2, hy3⟩ := key.2 y (List.mem_of_mem_head? hy)
          refine ⟨?_, ?_, ?_, ?_⟩
          · dsimp only
            omega
          · dsimp only
            omega
          · dsimp only
            omega
          · dsimp only
            exact hy3
        · intro p hp
          rcases List.mem_cons.mp hp with hp | hp
          · subst hp
            refine ⟨?_, ?_, ?_⟩
            · dsimp only
              omega
            · dsimp only
              omega
            · dsimp only
              exact le_add_of_nonneg_right hPD
          · obtain ⟨hp1, hp2, hp3⟩ := key.2 p hp
            refine ⟨?_, ?_, ?_⟩
            · omega
            · omega
            · exact le_trans (le_add_of_nonneg_right hPD) hp3

/-- C2: over every sequence of ticks with monotone clock readings, the
emitted record sequence is such that consecutive records are at least
one transmission interval apart in `timestamp`, strictly increasing in
`timestamp`, and non-decreasing in observed sample count and in
`cumulativeEnergy` (the latter under non-negative bus voltages, which
make every power input non-negative). -/
theorem emitted_records_monotone (s : SessionState) (ticks : List Tick)
    (hmono : List.Pairwise (fun a b : Tick => a.now ≤ b.now) ticks)
    (hstart : ∀ t ∈ ticks, s.sessionStartTime ≤ t.now)
    (hlast : ∀ t ∈ ticks, s.lastTransmission ≤ t.now)
    (hV : ∀ t ∈ ticks, 0 ≤ t.input.busVoltage) :
    List.Chain' recR (runTicks s ticks).2 :=
  (runTicks_inv ticks s hmono hstart hlast hV).1

/-- Witness for C2 on a concrete two-tick schedule that emits two
records. -/
theorem emitted_records_monotone_witness :
    List.Pairwise (fun a b : Tick => a.now ≤ b.now) sampleTicks ∧
    (∀ t ∈ sampleTicks, (initialState 0 12).sessionStartTime ≤ t.now) ∧
    (∀ t ∈ sampleTicks, (initialState 0 12).lastTransmission ≤ t.now) ∧
    (∀ t ∈ sampleTicks, 0 ≤ t.input.busVoltage) ∧
    List.Chain' recR (runTicks (initialState 0 12) sampleTicks).2 :=
  ⟨by decide, by decide, by decide,
   by
     intro t ht
     fin_cases ht <;> norm_num [sampleTicks],
   emitted_records_monotone (initialState 0 12) sampleTicks
     (by decide) (by decide) (by decide)
     (by
       intro t ht
       fin_cases ht <;> norm_num [sampleTicks])⟩
